import Mathlib

/-!
Verification of the cross-process rate-limiting and content-cache
subsystem of cmdgpt, shallowly embedded from:
  src/src/file_rate_limiter.cpp, src/include/file_rate_limiter.h
  src/src/file_lock.cpp, src/include/file_lock.h
  src/src/cmdgpt.cpp (ResponseCache), src/include/cmdgpt.h

C++ doubles are modelled as rationals, size_t and uint32_t as Nat,
int64 millisecond timestamps as Int.  Code that can throw is modelled
as total functions returning Except or returning the unchanged state,
with an explicit Boolean for each operating-system outcome the code
branches on (lock acquisition, flock, rename, remove).
-/

namespace Cmdgpt

/-- Token-bucket record persisted in the rate-limiter state file
(struct TokenBucketState, file_rate_limiter.h lines 121-128). -/
structure TokenBucketState where
  tokens : ℚ
  last_update_ms : ℤ
  rate : ℚ
  burst_size : ℕ
  version : ℕ
deriving DecidableEq

/-- Contents of the rate-limiter state file as load_state observes them:
absent (open fails), too short for one full record (the read leaves the
stream not good), or one complete record. -/
inductive StateFile where
  | absent : StateFile
  | truncated : StateFile
  | record : TokenBucketState → StateFile
deriving DecidableEq

/-- FileRateLimiter::load_state (file_rate_limiter.cpp 204-221): open the
state file, read one record; an unopenable file, a short read, or a
version field other than 1 throws, modelled as Except.error. -/
def load_state : StateFile → Except Unit TokenBucketState
  | .absent => .error ()
  | .truncated => .error ()
  | .record s => if s.version = 1 then .ok s else .error ()

/-- FileRateLimiter::update_tokens (file_rate_limiter.cpp 237-255):
non-positive elapsed time leaves the state untouched; otherwise refill at
state.rate tokens per second and cap at state.burst_size, advancing
last_update_ms. -/
def update_tokens (s : TokenBucketState) (now_ms : ℤ) : TokenBucketState :=
  if now_ms - s.last_update_ms ≤ 0 then s
  else
    { s with
      tokens := min (s.tokens +
          ((now_ms - s.last_update_ms : ℤ) : ℚ) / 1000 * s.rate)
        (s.burst_size : ℚ),
      last_update_ms := now_ms }

/-- FileRateLimiter::try_acquire (file_rate_limiter.cpp 45-76).  lockOk
records whether the exclusive FileLock was obtained within the timeout;
the catch-all turns any failure (lock timeout, unopenable or corrupt
state file) into a denial, leaving the file as it was.  On a grant the
decremented state is persisted through save_state. -/
def try_acquire (lockOk : Bool) (f : StateFile) (now_ms : ℤ) (n : ℕ) :
    Bool × StateFile :=
  if lockOk then
    match load_state f with
    | .error _ => (false, f)
    | .ok s =>
      let s1 := update_tokens s now_ms
      if (n : ℚ) ≤ s1.tokens then
        (true, .record { s1 with tokens := s1.tokens - (n : ℚ),
                                 last_update_ms := now_ms })
      else (false, f)
  else (false, f)

/-- Initial record written by the FileRateLimiter constructor when the
state file does not exist (file_rate_limiter.cpp 30-42): a full bucket
with version 1. -/
def initState (rate : ℚ) (burst : ℕ) (now_ms : ℤ) : TokenBucketState :=
  { tokens := (burst : ℚ), last_update_ms := now_ms, rate := rate,
    burst_size := burst, version := 1 }

/-- Effect of the FileRateLimiter constructor on the state file
(file_rate_limiter.cpp 18-43): write a full bucket only when the file
does not exist, otherwise leave it alone. -/
def construct (rate : ℚ) (burst : ℕ) (now_ms : ℤ) (f : StateFile) :
    StateFile :=
  match f with
  | .absent => .record (initState rate burst now_ms)
  | g => g

/-- FileRateLimiter::reset (file_rate_limiter.cpp 151-165): under the
exclusive lock write a zero-token record; if the lock fails the
exception propagates and the file is untouched. -/
def reset (lockOk : Bool) (rate : ℚ) (burst : ℕ) (now_ms : ℤ)
    (f : StateFile) : StateFile :=
  if lockOk then
    .record { tokens := 0, last_update_ms := now_ms, rate := rate,
              burst_size := burst, version := 1 }
  else f

/-- FileRateLimiter::get_available_tokens (file_rate_limiter.cpp
112-134): shared-lock read computing min(tokens + elapsed * rate, burst)
without persisting anything; any failure yields 0.  Note the source does
not clamp a negative elapsed time here. -/
def get_available_tokens (lockOk : Bool) (f : StateFile) (now_ms : ℤ) :
    ℚ :=
  if lockOk then
    match load_state f with
    | .error _ => 0
    | .ok s =>
      min (s.tokens +
          ((now_ms - s.last_update_ms : ℤ) : ℚ) / 1000 * s.rate)
        (s.burst_size : ℚ)
  else 0

/-- State files reachable from a fresh (absent) file by the operations of
one FileRateLimiter configured with the given rate and burst size. -/
inductive Reachable (rate : ℚ) (burst : ℕ) : StateFile → Prop where
  | init (now_ms : ℤ) :
      Reachable rate burst (construct rate burst now_ms .absent)
  | step_construct (f : StateFile) (now_ms : ℤ) :
      Reachable rate burst f →
      Reachable rate burst (construct rate burst now_ms f)
  | step_try (f : StateFile) (lockOk : Bool) (now_ms : ℤ) (n : ℕ) :
      Reachable rate burst f →
      Reachable rate burst (try_acquire lockOk f now_ms n).2
  | step_reset (f : StateFile) (lockOk : Bool) (now_ms : ℤ) :
      Reachable rate burst f →
      Reachable rate burst (reset lockOk rate burst now_ms f)

/-- Record invariant carried through every rate-limiter update: token
count within bounds and the configuration fields as the constructor
wrote them. -/
def GoodState (rate : ℚ) (burst : ℕ) (s : TokenBucketState) : Prop :=
  0 ≤ s.tokens ∧ s.tokens ≤ (burst : ℚ) ∧ s.rate = rate ∧
  s.burst_size = burst

/-- File invariant: whatever record the file holds is a good state. -/
def GoodFile (rate : ℚ) (burst : ℕ) (f : StateFile) : Prop :=
  ∀ s, f = .record s → GoodState rate burst s

/-- One try_acquire(1) call with the lock granted and no elapsed time,
as in the burst property of spec section 8. -/
def burstStep (now_ms : ℤ) (f : StateFile) : StateFile :=
  (try_acquire true f now_ms 1).2

/-- State file after the constructor and k immediate try_acquire(1)
calls, all at the construction instant t. -/
def burstRun (rate : ℚ) (b : ℕ) (t : ℤ) : ℕ → StateFile
  | 0 => construct rate b t .absent
  | k + 1 => burstStep t (burstRun rate b t k)

/-- Outcome of call number k + 1 in the burst sequence. -/
def burstResult (rate : ℚ) (b : ℕ) (t : ℤ) (k : ℕ) : Bool :=
  (try_acquire true (burstRun rate b t k) t 1).1

/-- Errors thrown by ResponseCache::get_cache_path: ValidationException
for a key with a non-hex character, SecurityException for a path-escape
or canonicalization failure. -/
inductive CacheError where
  | validation : CacheError
  | security : CacheError
deriving DecidableEq

/-- Test matching std::isxdigit on the byte values used here. -/
def isHexDigit (c : Char) : Bool :=
  ('0' ≤ c && c ≤ '9') || ('a' ≤ c && c ≤ 'f') || ('A' ≤ c && c ≤ 'F')

/-- Lowercase hexadecimal digit, the alphabet generate_key emits. -/
def isLowerHexDigit (c : Char) : Bool :=
  ('0' ≤ c && c ≤ '9') || ('a' ≤ c && c ≤ 'f')

/-- Characters strictly before the final slash of a path, matching
std::filesystem::path::parent_path on the slash-joined paths built
here. -/
def parentChars (l : List Char) : List Char :=
  ((l.reverse.dropWhile (fun c => c != '/')).drop 1).reverse

/-- Parent directory of a path given as a string. -/
def parentPath (s : String) : String := ⟨parentChars s.data⟩

/-- Final path component (the filename), the characters after the last
slash. -/
def fileName (s : String) : String :=
  ⟨(s.data.reverse.takeWhile (fun c => c != '/')).reverse⟩

/-- Shape asserted by the spec for on-disk cache filenames: exactly 64
hexadecimal characters followed by the .json extension. -/
def Is64HexJsonName (s : String) : Prop :=
  s.data.length = 69 ∧ (s.data.take 64).all isHexDigit = true ∧
  s.data.drop 64 = ".json".data

instance (s : String) : Decidable (Is64HexJsonName s) := by
  unfold Is64HexJsonName
  infer_instance

/-- ResponseCache::get_cache_path (cmdgpt.cpp 1707-1744).  Filesystem
canonicalization is abstracted as canon (none when std::filesystem::
canonical sets the error code); it is consulted only after every
character of the key has passed the hex check, so a rejected key causes
no filesystem access at all.  The prefix test mirrors the source line
canonical_file_parent.string().find(canonical_cache_dir.string()) != 0. -/
def get_cache_path (canon : String → Option String) (cache_dir : String)
    (key : String) : Except CacheError String :=
  if key.data.all isHexDigit then
    match canon cache_dir with
    | none => .error .security
    | some canonical_cache_dir =>
      match canon (parentPath (cache_dir ++ "/" ++ (key ++ ".json"))) with
      | none => .error .security
      | some canonical_file_parent =>
        if canonical_cache_dir.data.isPrefixOf canonical_file_parent.data
        then .ok (cache_dir ++ "/" ++ (key ++ ".json"))
        else .error .security
  else .error .validation

/-- Identity canonicalization: every path already canonical, no
symlinks. -/
def canonId : String → Option String := fun s => some s

/-- One cache entry as the capacity logic of put sees it: whether
is_expired holds for it and its byte size. -/
structure CacheEntry where
  expired : Bool
  size : ℕ
deriving DecidableEq

/-- MAX_CACHE_ENTRIES (cmdgpt.h line 130). -/
def MAX_CACHE_ENTRIES : ℕ := 1000

/-- MAX_CACHE_SIZE_MB (cmdgpt.h line 129). -/
def MAX_CACHE_SIZE_MB : ℕ := 100

/-- Entry count reported by get_stats. -/
def cacheCount (c : List CacheEntry) : ℕ := c.length

/-- Aggregate byte size reported by get_stats. -/
def cacheSize (c : List CacheEntry) : ℕ := (c.map CacheEntry.size).sum

/-- ResponseCache::clean_expired (cmdgpt.cpp 1925-1946) on the entry
list: remove exactly the expired entries. -/
def clean_expired (c : List CacheEntry) : List CacheEntry :=
  c.filter (fun e => !e.expired)

/-- Capacity-control prefix of ResponseCache::put (cmdgpt.cpp
1835-1857): the entry list after any cleanup, and whether the write
proceeds.  Only the entry-count ceiling triggers clean_expired; the
byte-size ceiling is then checked on the stats in hand and skips the
write directly. -/
def put_decision (c : List CacheEntry) : List CacheEntry × Bool :=
  if MAX_CACHE_ENTRIES ≤ cacheCount c then
    let c1 := clean_expired c
    if MAX_CACHE_ENTRIES ≤ cacheCount c1 then (c1, false)
    else if MAX_CACHE_SIZE_MB * 1024 * 1024 < cacheSize c1 then (c1, false)
    else (c1, true)
  else if MAX_CACHE_SIZE_MB * 1024 * 1024 < cacheSize c then (c, false)
  else (c, true)

/-- Modelled from the words of the specification (section 4.4 put): if
either the entry-count or the byte-size ceiling is exceeded, first run
clean_expired and re-check; only if still over a ceiling is the write
skipped.  Kept separate from put_decision, which is the source. -/
def put_decision_spec (c : List CacheEntry) : List CacheEntry × Bool :=
  if MAX_CACHE_ENTRIES ≤ cacheCount c ∨
     MAX_CACHE_SIZE_MB * 1024 * 1024 < cacheSize c then
    let c1 := clean_expired c
    if MAX_CACHE_ENTRIES ≤ cacheCount c1 ∨
       MAX_CACHE_SIZE_MB * 1024 * 1024 < cacheSize c1 then (c1, false)
    else (c1, true)
  else (c, true)

/-- Filesystem slice touched by one AtomicFileWriter: the target path
and its temporary sibling, each absent or holding bytes. -/
structure WriterFs where
  target : Option String
  temp : Option String
deriving DecidableEq

/-- Writer bookkeeping flags (file_lock.h 262-263). -/
structure Writer where
  committed : Bool
  aborted : Bool
deriving DecidableEq

/-- AtomicFileWriter constructor (file_lock.cpp 311-331): create the
temporary file empty; the target is untouched. -/
def writer_construct (fs : WriterFs) : WriterFs × Writer :=
  ({ fs with temp := some "" }, { committed := false, aborted := false })

/-- AtomicFileWriter::write (file_lock.cpp 354-380): append to the
temporary stream; the target is untouched. -/
def writer_write (fs : WriterFs) (data : String) : WriterFs :=
  { fs with temp := some ((fs.temp.getD "") ++ data) }

/-- AtomicFileWriter::abort (file_lock.h 256): set a flag only; no
filesystem effect. -/
def writer_abort (w : Writer) : Writer := { w with aborted := true }

/-- AtomicFileWriter::commit (file_lock.cpp 382-415).  The three
Booleans are the outcomes of the first rename, of remove(target), and of
the retry rename.  When the first rename fails and the remove succeeds
but the retry rename also fails, the target has already been removed and
the temporary is cleaned up before the exception propagates. -/
def writer_commit (fs : WriterFs) (w : Writer)
    (rename1_ok remove_ok rename2_ok : Bool) : WriterFs × Writer :=
  if rename1_ok then
    ({ target := fs.temp, temp := none }, { w with committed := true })
  else if remove_ok then
    if rename2_ok then
      ({ target := fs.temp, temp := none }, { w with committed := true })
    else ({ target := none, temp := none }, w)
  else ({ fs with temp := none }, w)

/-- AtomicFileWriter destructor (file_lock.cpp 333-352): when no commit
succeeded, delete the temporary file; the target is untouched. -/
def writer_destroy (fs : WriterFs) (w : Writer) : WriterFs :=
  if w.committed then fs else { fs with temp := none }

/-- A writer session in which commit is never invoked: construction, a
sequence of writes, optionally abort, then destruction. -/
def writer_session_no_commit (fs0 : WriterFs) (writes : List String)
    (doAbort : Bool) : WriterFs :=
  let fw := writer_construct fs0
  let fs1 := writes.foldl writer_write fw.1
  let w1 := if doAbort then writer_abort fw.2 else fw.2
  writer_destroy fs1 w1

/-- Concrete failed-commit trace: target initially holds OLD, the writer
stages NEW, the first rename fails, remove(target) succeeds, the retry
rename fails, and the writer is destroyed uncommitted. -/
def c8run : WriterFs × Writer :=
  let fw := writer_construct { target := some "OLD", temp := none }
  let fs2 := writer_write fw.1 "NEW"
  let cw := writer_commit fs2 fw.2 false true false
  (writer_destroy cw.1 cw.2, cw.2)

/-- Temporary path staged by ResponseCache::put (cmdgpt.cpp 1870):
path.string() + ".tmp".  The invocationId stands for any per-invocation
entropy an independent staging scheme would use; the source derives the
temporary name from the key alone, so the parameter is unused. -/
def put_temp_path (cache_dir key : String) (_invocationId : ℕ) : String :=
  cache_dir ++ "/" ++ (key ++ ".json") ++ ".tmp"

/-- Overwrite bytes of content starting at a byte position, as a POSIX
write on a file descriptor positioned there. -/
def writeAt (content : String) (pos : ℕ) (data : String) : String :=
  ⟨content.data.take pos ++ data.data ++
    content.data.drop (pos + data.data.length)⟩

/-- Final temp-file bytes of one interleaving of two put invocations for
the same key, both using the shared temporary path: A opens (truncate)
and writes AA, B opens (truncate) and writes its whole payload BB, A
writes its remaining aa at its stream offset 2. -/
def raceTempContent : String :=
  writeAt (writeAt (writeAt "" 0 "AA") 0 "BB") 2 "aa"

/-- Atomic rename publishing a temporary file onto the target
(cmdgpt.cpp 1878): the target takes the complete temp bytes in one
step and the temporary identity disappears. -/
def rename_publish (tempContent : String) (_fs : WriterFs) : WriterFs :=
  { target := some tempContent, temp := none }

/-- Filesystem outcome of that race: A closes and renames the shared
temporary onto the target; B then attempts its rename, the temporary is
gone, the exception is caught by put and discarded. -/
def raceRun : WriterFs :=
  rename_publish raceTempContent { target := none, temp := some raceTempContent }

/-- Concrete cache for the C6 counterexample: one expired entry one
byte over the 100 MiB size ceiling, entry count far below the count
ceiling. -/
def c6cache : List CacheEntry := [{ expired := true, size := 104857601 }]

/-- Lock mode (enum LockType, file_lock.h 59-63). -/
inductive LockMode where
  | SHARED : LockMode
  | EXCLUSIVE : LockMode
deriving DecidableEq

/-- FileLock fields the downgrade and upgrade paths read and write
(file_lock.h 138-146): held flag, mode, POSIX descriptor. -/
structure FileLockSt where
  locked : Bool
  type : LockMode
  fd : ℤ
deriving DecidableEq

/-- FileLock::try_lock_shared (file_lock.cpp 179-197): the guard returns
false when the lock is held or the mode is not EXCLUSIVE; only past the
guard is flock consulted, abstracted as flockOk. -/
def try_lock_shared (flockOk : Bool) (s : FileLockSt) :
    Bool × FileLockSt :=
  if s.locked || s.type != LockMode.EXCLUSIVE then (false, s)
  else if flockOk then (true, { s with type := LockMode.SHARED })
  else (false, s)

/-- FileLock::try_upgrade (file_lock.cpp 199-217): the guard requires
the lock to be held in SHARED mode. -/
def try_upgrade (flockOk : Bool) (s : FileLockSt) : Bool × FileLockSt :=
  if !s.locked || s.type != LockMode.SHARED then (false, s)
  else if flockOk then (true, { s with type := LockMode.EXCLUSIVE })
  else (false, s)

/-- Helper: a refill step keeps the record invariant when the rate is
nonnegative. -/
theorem update_tokens_goodState {rate : ℚ} {burst : ℕ}
    {s : TokenBucketState} (now_ms : ℤ) (hr : 0 ≤ rate)
    (h : GoodState rate burst s) :
    GoodState rate burst (update_tokens s now_ms) := by
  obtain ⟨h0, h1, h2, h3⟩ := h
  by_cases he : now_ms - s.last_update_ms ≤ 0
  · rw [update_tokens, if_pos he]
    exact ⟨h0, h1, h2, h3⟩
  · have hpos : (0 : ℚ) < ((now_ms - s.last_update_ms : ℤ) : ℚ) := by
      exact_mod_cast lt_of_not_le he
    have hmul : (0 : ℚ) ≤
        ((now_ms - s.last_update_ms : ℤ) : ℚ) / 1000 * s.rate :=
      mul_nonneg (by positivity) (h2 ▸ hr)
    rw [update_tokens, if_neg he]
    refine ⟨le_min (by linarith) (by positivity), ?_, h2, h3⟩
    exact le_trans (min_le_right _ _) (by rw [h3])

/-- Helper: try_acquire keeps the file invariant. -/
theorem try_acquire_goodFile {rate : ℚ} {burst : ℕ}
    (lockOk : Bool) (f : StateFile) (now_ms : ℤ) (n : ℕ) (hr : 0 ≤ rate)
    (h : GoodFile rate burst f) :
    GoodFile rate burst (try_acquire lockOk f now_ms n).2 := by
  cases lockOk with
  | false => simpa [try_acquire] using h
  | true =>
    cases f with
    | absent => simpa [try_acquire, load_state] using h
    | truncated => simpa [try_acquire, load_state] using h
    | record s =>
      by_cases hv : s.version = 1
      · have hs1 : GoodState rate burst (update_tokens s now_ms) :=
          update_tokens_goodState now_ms hr (h s rfl)
        obtain ⟨g0, g1, g2, g3⟩ := hs1
        by_cases hn : (n : ℚ) ≤ (update_tokens s now_ms).tokens
        · intro s2 hs2
          simp [try_acquire, load_state, hv, hn] at hs2
          subst hs2
          have hn0 : (0 : ℚ) ≤ (n : ℚ) := Nat.cast_nonneg n
          refine ⟨?_, ?_, g2, g3⟩
          · show (0 : ℚ) ≤ (update_tokens s now_ms).tokens - (n : ℚ)
            linarith
          · show (update_tokens s now_ms).tokens - (n : ℚ) ≤ (burst : ℚ)
            linarith
        · simpa [try_acquire, load_state, hv, hn] using h
      · simpa [try_acquire, load_state, hv] using h

/-- Helper: the constructor establishes the file invariant. -/
theorem construct_goodFile {rate : ℚ} {burst : ℕ}
    (f : StateFile) (now_ms : ℤ)
    (h : GoodFile rate burst f) :
    GoodFile rate burst (construct rate burst now_ms f) := by
  cases f with
  | absent =>
    intro s hs
    simp [construct, initState] at hs
    subst hs
    exact ⟨by positivity, le_refl _, rfl, rfl⟩
  | truncated => simpa [construct] using h
  | record s => simpa [construct] using h

/-- Helper: reset keeps the file invariant. -/
theorem reset_goodFile {rate : ℚ} {burst : ℕ}
    (lockOk : Bool) (f : StateFile) (now_ms : ℤ)
    (h : GoodFile rate burst f) :
    GoodFile rate burst (reset lockOk rate burst now_ms f) := by
  cases lockOk with
  | false => simpa [reset] using h
  | true =>
    intro s hs
    simp [reset] at hs
    subst hs
    exact ⟨le_refl _, by positivity, rfl, rfl⟩

/-- Helper: every reachable state file satisfies the invariant. -/
theorem reachable_goodFile {rate : ℚ} {burst : ℕ} {f : StateFile}
    (hr : 0 ≤ rate) (hf : Reachable rate burst f) :
    GoodFile rate burst f := by
  induction hf with
  | init t => exact construct_goodFile _ t (by intro s hs; cases hs)
  | step_construct f t _ ih => exact construct_goodFile f t ih
  | step_try f lockOk t n _ ih => exact try_acquire_goodFile lockOk f t n hr ih
  | step_reset f lockOk t _ ih => exact reset_goodFile lockOk f t ih

/-- Helper: dropWhile skips a whole block on which the test holds. -/
theorem dropWhile_append_all (p : Char → Bool) (l1 l2 : List Char)
    (h : ∀ x ∈ l1, p x = true) :
    List.dropWhile p (l1 ++ l2) = List.dropWhile p l2 := by
  induction l1 with
  | nil => rfl
  | cons a l1 ih =>
    simp only [List.cons_append, List.dropWhile_cons,
      h a (List.mem_cons_self a l1), if_true]
    exact ih fun x hx => h x (List.mem_cons_of_mem a hx)

/-- Helper: takeWhile keeps a whole block on which the test holds. -/
theorem takeWhile_append_all (p : Char → Bool) (l1 l2 : List Char)
    (h : ∀ x ∈ l1, p x = true) :
    List.takeWhile p (l1 ++ l2) = l1 ++ List.takeWhile p l2 := by
  induction l1 with
  | nil => rfl
  | cons a l1 ih =>
    simp only [List.cons_append, List.takeWhile_cons,
      h a (List.mem_cons_self a l1), if_true]
    rw [ih fun x hx => h x (List.mem_cons_of_mem a hx)]

/-- Helper: a list is a Boolean prefix of itself. -/
theorem isPrefixOf_self (l : List Char) : l.isPrefixOf l = true := by
  induction l with
  | nil => rfl
  | cons a l ih => simp [List.isPrefixOf, ih]

/-- Helper: the characters of dir/tail decompose around the slash. -/
theorem data_join (dir tail : String) :
    (dir ++ "/" ++ tail).data = dir.data ++ '/' :: tail.data := by
  rw [String.data_append, String.data_append]
  simp

/-- Helper: the parent of dir/tail is dir when tail has no slash. -/
theorem parentPath_join (dir tail : String)
    (h : ∀ c ∈ tail.data, c ≠ '/') :
    parentPath (dir ++ "/" ++ tail) = dir := by
  unfold parentPath parentChars
  rw [data_join, List.reverse_append, List.reverse_cons, List.append_assoc]
  rw [dropWhile_append_all _ _ _
    (fun x hx => by
      simpa using h x (List.mem_reverse.mp hx))]
  simp

/-- Helper: the filename of dir/tail is tail when tail has no slash. -/
theorem fileName_join (dir tail : String)
    (h : ∀ c ∈ tail.data, c ≠ '/') :
    fileName (dir ++ "/" ++ tail) = tail := by
  unfold fileName
  rw [data_join, List.reverse_append, List.reverse_cons, List.append_assoc]
  rw [takeWhile_append_all _ _ _
    (fun x hx => by
      simpa using h x (List.mem_reverse.mp hx))]
  simp

/-- Helper: a hexadecimal digit is never a slash. -/
theorem hex_ne_slash {c : Char} (h : isHexDigit c = true) : c ≠ '/' := by
  intro hc
  subst hc
  exact absurd h (by decide)

/-- Helper: no character of key.json is a slash when the key is all
hex. -/
theorem all_hex_json_no_slash (key : String)
    (h : key.data.all isHexDigit = true) :
    ∀ c ∈ (key ++ ".json").data, c ≠ '/' := by
  intro c hc
  rw [String.data_append] at hc
  rcases List.mem_append.mp hc with hc | hc
  · exact hex_ne_slash (List.all_eq_true.mp h c hc)
  · have : c ∈ ['.', 'j', 's', 'o', 'n'] := hc
    fin_cases this <;> decide

/-- Helper: lowercase hex digits are hex digits. -/
theorem lowerHex_isHex {c : Char} (h : isLowerHexDigit c = true) :
    isHexDigit c = true := by
  simp only [isLowerHexDigit, Bool.or_eq_true] at h
  simp only [isHexDigit, Bool.or_eq_true]
  tauto

/-- C1: try_acquire fails closed.  If the exclusive lock times out or
loading the state file fails (unopenable, short read, or version other
than 1), try_acquire returns false — never true, and in this total model
no exception reaches the caller — and the on-disk state file is exactly
as it was. -/
theorem c1_try_acquire_fail_closed (lockOk : Bool) (f : StateFile)
    (now_ms : ℤ) (n : ℕ)
    (h : lockOk = false ∨ load_state f = .error ()) :
    try_acquire lockOk f now_ms n = (false, f) := by
  rcases h with h | h
  · simp [try_acquire, h]
  · cases lockOk <;> simp [try_acquire, h]

/-- Witness for C1: a lock timeout on a well-formed file, and a granted
lock over a truncated file, both deny and leave the file unchanged. -/
theorem c1_witness :
    try_acquire false (.record ⟨5, 0, 3, 5, 1⟩) 0 1 =
      (false, .record ⟨5, 0, 3, 5, 1⟩) ∧
    try_acquire true .truncated 0 1 = (false, .truncated) :=
  ⟨c1_try_acquire_fail_closed false (.record ⟨5, 0, 3, 5, 1⟩) 0 1
      (Or.inl rfl),
   c1_try_acquire_fail_closed true .truncated 0 1 (Or.inr rfl)⟩

/-- C2: on every state file reachable from a fresh file by construction,
try_acquire and reset of a limiter with nonnegative rate, the persisted
token count satisfies 0 ≤ tokens ≤ burst_size. -/
theorem c2_token_bounds (rate : ℚ) (burst : ℕ) (hr : 0 ≤ rate)
    (f : StateFile) (hf : Reachable rate burst f)
    (s : TokenBucketState) (hs : f = .record s) :
    0 ≤ s.tokens ∧ s.tokens ≤ (burst : ℚ) := by
  obtain ⟨h0, h1, _, _⟩ := reachable_goodFile hr hf s hs
  exact ⟨h0, h1⟩

/-- Witness for C2: the freshly constructed full bucket of a rate-1,
burst-2 limiter is within bounds. -/
theorem c2_witness :
    0 ≤ (initState 1 2 0).tokens ∧
    (initState 1 2 0).tokens ≤ ((2 : ℕ) : ℚ) :=
  c2_token_bounds 1 2 (by norm_num)
    (construct 1 2 0 .absent) (Reachable.init 0) (initState 1 2 0) rfl

/-- C5 counterexample: get_available_tokens applies no clamp to a
negative elapsed time.  With stored tokens 5, rate 1, burst 5 and
last_update_ms 1000, a read at wall-clock 0 (a one-second rewind)
returns 4, strictly below the stored token count 5 — the claim says the
snapshot is never lower than the stored count. -/
theorem c5_counterexample :
    get_available_tokens true (.record ⟨5, 1000, 1, 5, 1⟩) 0 = 4 ∧
    get_available_tokens true (.record ⟨5, 1000, 1, 5, 1⟩) 0 <
      (TokenBucketState.mk 5 1000 1 5 1).tokens := by
  constructor <;> norm_num [get_available_tokens, load_state]

/-- C5 amended: only the mutating refill used by try_acquire treats a
non-positive elapsed time as zero elapsed time; update_tokens then
returns the state unchanged, so the persisted token count is never
lowered by a clock rewind. -/
theorem c5_amended (s : TokenBucketState) (now_ms : ℤ)
    (h : now_ms - s.last_update_ms ≤ 0) :
    update_tokens s now_ms = s := by
  simp [update_tokens, h]

/-- Witness for C5 amended: a one-second rewind leaves the stored record
untouched by update_tokens. -/
theorem c5_witness :
    update_tokens ⟨5, 1000, 1, 5, 1⟩ 0 = ⟨5, 1000, 1, 5, 1⟩ :=
  c5_amended ⟨5, 1000, 1, 5, 1⟩ 0 (by decide)

/-- Helper: after k of the burst calls the file holds b - k tokens. -/
theorem burstRun_eq (rate : ℚ) (b : ℕ) (t : ℤ) (k : ℕ) (hk : k ≤ b) :
    burstRun rate b t k = .record ⟨(b : ℚ) - (k : ℚ), t, rate, b, 1⟩ := by
  induction k with
  | zero => simp [burstRun, construct, initState]
  | succ k ih =>
    have hk1 : k ≤ b := Nat.le_of_succ_le hk
    have hlt : k < b := hk
    have hguard : (1 : ℚ) ≤ (b : ℚ) - (k : ℚ) := by
      have : (k : ℚ) + 1 ≤ (b : ℚ) := by exact_mod_cast hlt
      linarith
    rw [burstRun, ih hk1]
    simp only [burstStep, try_acquire, load_state, update_tokens]
    norm_num [hguard]
    ring

/-- C7: against a freshly initialized full bucket of size b with no time
elapsed between calls, each of the first b try_acquire(1) calls returns
true and call number b + 1 returns false. -/
theorem c7_burst_bound (rate : ℚ) (b : ℕ) (t : ℤ) :
    (∀ k, k < b → burstResult rate b t k = true) ∧
    burstResult rate b t b = false := by
  constructor
  · intro k hk
    have hguard : (1 : ℚ) ≤ (b : ℚ) - (k : ℚ) := by
      have : (k : ℚ) + 1 ≤ (b : ℚ) := by exact_mod_cast hk
      linarith
    rw [burstResult, burstRun_eq rate b t k (Nat.le_of_lt hk)]
    simp [try_acquire, load_state, update_tokens, hguard]
  · rw [burstResult, burstRun_eq rate b t b (le_refl b)]
    norm_num [try_acquire, load_state, update_tokens]

/-- Witness for C7: with burst 2, calls one and two succeed and call
three fails. -/
theorem c7_witness :
    burstResult 1 2 0 0 = true ∧ burstResult 1 2 0 1 = true ∧
    burstResult 1 2 0 2 = false :=
  ⟨(c7_burst_bound 1 2 0).1 0 (by norm_num),
   (c7_burst_bound 1 2 0).1 1 (by norm_num),
   (c7_burst_bound 1 2 0).2⟩

/-- C3: any key holding a character that is not a hexadecimal digit is
rejected with the validation error before the canonicalization primitive
is ever consulted — the result is the same for every canon, so the
rejection involves no filesystem access — and every 64-character
lowercase-hex key is accepted whenever the cache root canonicalizes,
since its candidate parent is the cache root itself.  get, put and
has_valid_cache all reach the filesystem through this path computation
(cmdgpt.cpp 1773, 1794, 1859). -/
theorem c3_key_validation (cache_dir key : String) :
    ((∃ c ∈ key.data, isHexDigit c = false) →
      ∀ canon, get_cache_path canon cache_dir key = .error .validation) ∧
    (key.data.all isLowerHexDigit = true → key.data.length = 64 →
      ∀ canon r, canon cache_dir = some r →
        get_cache_path canon cache_dir key =
          .ok (cache_dir ++ "/" ++ (key ++ ".json"))) := by
  constructor
  · intro hbad canon
    obtain ⟨c, hc, hcf⟩ := hbad
    have hall : ¬ key.data.all isHexDigit = true := by
      intro hall
      rw [List.all_eq_true.mp hall c hc] at hcf
      cases hcf
    rw [get_cache_path, if_neg hall]
  · intro hlower _hlen canon r hr
    have hhex : key.data.all isHexDigit = true :=
      List.all_eq_true.mpr fun c hc =>
        lowerHex_isHex (List.all_eq_true.mp hlower c hc)
    rw [get_cache_path, if_pos hhex,
      parentPath_join cache_dir (key ++ ".json")
        (all_hex_json_no_slash key hhex)]
    simp [hr, isPrefixOf_self]

/-- Witness for C3: the three traversal keys of the spec are rejected
with the validation error under the identity canonicalization (and, by
the theorem, under every other), and the 64-character key of all a
characters is accepted. -/
theorem c3_witness :
    get_cache_path canonId "/root/.cmdgpt/cache" "../evil" =
      .error .validation ∧
    get_cache_path canonId "/root/.cmdgpt/cache" "test/../../evil" =
      .error .validation ∧
    get_cache_path canonId "/root/.cmdgpt/cache" "/etc/passwd" =
      .error .validation ∧
    get_cache_path canonId "/root/.cmdgpt/cache"
        (String.mk (List.replicate 64 'a')) =
      .ok ("/root/.cmdgpt/cache" ++ "/" ++
        (String.mk (List.replicate 64 'a') ++ ".json")) :=
  ⟨(c3_key_validation "/root/.cmdgpt/cache" "../evil").1
      (by decide) canonId,
   (c3_key_validation "/root/.cmdgpt/cache" "test/../../evil").1
      (by decide) canonId,
   (c3_key_validation "/root/.cmdgpt/cache" "/etc/passwd").1
      (by decide) canonId,
   (c3_key_validation "/root/.cmdgpt/cache"
      (String.mk (List.replicate 64 'a'))).2
      (by decide) (by decide) canonId "/root/.cmdgpt/cache" rfl⟩

/-- C4 counterexample: get_cache_path never checks the key length, so
the two-character hex key ab is accepted and the resulting filename
ab.json is not of the 64-hex-characters-plus-.json shape the claim
asserts for every accepted key. -/
theorem c4_counterexample :
    get_cache_path canonId "/cache" "ab" = .ok "/cache/ab.json" ∧
    fileName "/cache/ab.json" = "ab.json" ∧
    ¬ Is64HexJsonName "ab.json" := by
  refine ⟨rfl, rfl, by decide⟩

/-- C4 amended: every key accepted by get_cache_path consists solely of
hexadecimal characters (its length is not constrained), and the
resulting path is key.json directly under the cache root, so its parent
is the cache root on every access; the 64-character shape itself is not
enforced. -/
theorem c4_accepted_key_shape (canon : String → Option String)
    (cache_dir key p : String)
    (h : get_cache_path canon cache_dir key = .ok p) :
    key.data.all isHexDigit = true ∧
    p = cache_dir ++ "/" ++ (key ++ ".json") ∧
    parentPath p = cache_dir ∧ fileName p = key ++ ".json" := by
  by_cases hhex : key.data.all isHexDigit = true
  · rw [get_cache_path, if_pos hhex] at h
    cases hcd : canon cache_dir with
    | none => simp [hcd] at h
    | some r =>
      cases hcp : canon
          (parentPath (cache_dir ++ "/" ++ (key ++ ".json"))) with
      | none => simp [hcd, hcp] at h
      | some rp =>
        by_cases hpre : r.data.isPrefixOf rp.data = true
        · have hp : cache_dir ++ "/" ++ (key ++ ".json") = p := by
            simpa [hcd, hcp, hpre] using h
          refine ⟨hhex, hp.symm, ?_, ?_⟩
          · rw [← hp]
            exact parentPath_join _ _ (all_hex_json_no_slash key hhex)
          · rw [← hp]
            exact fileName_join _ _ (all_hex_json_no_slash key hhex)
        · simp [hcd, hcp, hpre] at h
  · rw [get_cache_path, if_neg hhex] at h; simp at h

/-- Witness for C4 amended: instantiated at the accepted short key
ab under the identity canonicalization. -/
theorem c4_witness :
    "ab".data.all isHexDigit = true ∧
    "/cache/ab.json" = "/cache" ++ "/" ++ ("ab" ++ ".json") ∧
    parentPath "/cache/ab.json" = "/cache" ∧
    fileName "/cache/ab.json" = "ab" ++ ".json" :=
  c4_accepted_key_shape canonId "/cache" "ab" "/cache/ab.json" rfl

/-- C6 counterexample: a cache whose byte size is over the ceiling while
its entry count is under the count ceiling.  The claim says put first
runs clean_expired and re-checks; the code skips the write at once
(put_decision), while the behaviour the specification describes
(put_decision_spec) would clean the expired oversize entry and write. -/
theorem c6_counterexample :
    put_decision c6cache = (c6cache, false) ∧
    clean_expired c6cache = [] ∧
    put_decision_spec c6cache = ([], true) := by
  decide

/-- C6 amended: only the entry-count ceiling triggers clean_expired and
a re-check; when the count is under its ceiling but the byte size is
over, the write is skipped with no cleanup; after a count-triggered
cleanup the write happens exactly when both the count and the size of
the cleaned cache are within their ceilings. -/
theorem c6_capacity_behavior (c : List CacheEntry) :
    (cacheCount c < MAX_CACHE_ENTRIES →
      (MAX_CACHE_SIZE_MB * 1024 * 1024 < cacheSize c →
        put_decision c = (c, false)) ∧
      (cacheSize c ≤ MAX_CACHE_SIZE_MB * 1024 * 1024 →
        put_decision c = (c, true))) ∧
    (MAX_CACHE_ENTRIES ≤ cacheCount c →
      (put_decision c).1 = clean_expired c ∧
      ((put_decision c).2 = true ↔
        cacheCount (clean_expired c) < MAX_CACHE_ENTRIES ∧
        cacheSize (clean_expired c) ≤ MAX_CACHE_SIZE_MB * 1024 * 1024)) := by
  constructor
  · intro hc
    have hc2 : ¬ MAX_CACHE_ENTRIES ≤ cacheCount c := not_le.mpr hc
    constructor
    · intro hs
      rw [put_decision, if_neg hc2, if_pos hs]
    · intro hs
      rw [put_decision, if_neg hc2, if_neg (not_lt.mpr hs)]
  · intro hc
    rw [put_decision, if_pos hc]
    by_cases h1 : MAX_CACHE_ENTRIES ≤ cacheCount (clean_expired c)
    · rw [if_pos h1]
      refine ⟨rfl, ?_⟩
      simp only [Bool.false_eq_true, false_iff, not_and, not_le]
      intro h
      exact absurd h1 (not_le.mpr h)
    · rw [if_neg h1]
      by_cases h2 :
          MAX_CACHE_SIZE_MB * 1024 * 1024 < cacheSize (clean_expired c)
      · rw [if_pos h2]
        refine ⟨rfl, ?_⟩
        simp only [Bool.false_eq_true, false_iff, not_and, not_le]
        intro _
        exact h2
      · rw [if_neg h2]
        exact ⟨rfl, by simp [not_le.mp h1, not_lt.mp h2]⟩

/-- Witness for C6 amended: the empty cache is under both ceilings and
the write proceeds with no cleanup. -/
theorem c6_witness :
    put_decision ([] : List CacheEntry) = ([], true) :=
  ((c6_capacity_behavior []).1 (by decide)).2 (by decide)

/-- Helper: writing to the temporary never touches the target. -/
theorem foldl_writer_write_target (fs : WriterFs) (ws : List String) :
    (ws.foldl writer_write fs).target = fs.target := by
  induction ws generalizing fs with
  | nil => rfl
  | cons a ws ih => rw [List.foldl_cons, ih]; rfl

/-- C8 counterexample: a commit whose first rename fails, whose
remove(target) succeeds and whose retry rename then also fails leaves
the writer uncommitted with the target already deleted; destruction
removes the temporary, but the target is not byte-for-byte as before —
it is gone, against the claim that any destruction without a successful
commit leaves the target exactly as it was. -/
theorem c8_counterexample :
    c8run.2.committed = false ∧ c8run.1.temp = none ∧
    c8run.1.target = none ∧ ¬ c8run.1.target = some "OLD" := by
  decide

/-- C8 amended: if the writer is destroyed without commit ever being
invoked — plain destruction after any sequence of writes, with or
without abort — the temporary file is deleted and the target is exactly
as it was; a failed commit invocation, however, may already have removed
the target through its remove-then-retry path. -/
theorem c8_no_commit_frame (fs0 : WriterFs) (writes : List String)
    (doAbort : Bool) :
    (writer_session_no_commit fs0 writes doAbort).target = fs0.target ∧
    (writer_session_no_commit fs0 writes doAbort).temp = none := by
  unfold writer_session_no_commit writer_construct writer_abort
    writer_destroy
  cases doAbort <;> simp [foldl_writer_write_target]

/-- C9 counterexample: both put invocations for one key stage into the
single deterministic temporary path key.json.tmp (whatever per-invocation
entropy they could have used), and an interleaving in which writer A
puts AA then aa while writer B truncates and puts BB in between leaves
the published entry BBaa — a mix of the two payloads AAaa and BB, which
the claim says can never survive. -/
theorem c9_counterexample :
    put_temp_path "/cache" "ab" 17 = put_temp_path "/cache" "ab" 42 ∧
    raceTempContent = "BBaa" ∧
    raceRun.target = some "BBaa" ∧ raceRun.temp = none ∧
    ¬ raceRun.target = some ("AA" ++ "aa") ∧
    ¬ raceRun.target = some "BB" := by
  decide

/-- C9 amended: the temporary path put stages into is a function of the
cache directory and key alone — racing invocations for the same key
share it, so the surviving entry can interleave both payloads — while
each publication is still one atomic whole-file rename, so a reader
never observes a partially written entry. -/
theorem c9_shared_temp_atomic_rename :
    (∀ (cache_dir key : String) (id1 id2 : ℕ),
      put_temp_path cache_dir key id1 = put_temp_path cache_dir key id2) ∧
    (∀ (t : String) (fs : WriterFs),
      (rename_publish t fs).target = some t ∧
      (rename_publish t fs).temp = none) ∧
    raceTempContent ≠ "AA" ++ "aa" ∧ raceTempContent ≠ "BB" := by
  exact ⟨fun _ _ _ _ => rfl, fun _ _ => ⟨rfl, rfl⟩, by decide, by decide⟩

/-- C10: while the lock is held, try_lock_shared returns false with the
held flag, mode and descriptor untouched — its guard rejects any held
lock, so a held exclusive lock is never downgraded on any platform —
whereas the try_upgrade guard instead rejects any lock that is not
held. -/
theorem c10_no_downgrade_while_held (s : FileLockSt) (flockOk : Bool)
    (h : s.locked = true) :
    try_lock_shared flockOk s = (false, s) ∧
    (∀ (s2 : FileLockSt) (f2 : Bool), s2.locked = false →
      try_upgrade f2 s2 = (false, s2)) := by
  constructor
  · simp [try_lock_shared, h]
  · intro s2 f2 h2
    simp [try_upgrade, h2]

/-- Witness for C10: a held exclusive lock on descriptor 3 is not
downgraded even when flock would succeed, and an unheld shared-mode lock
is not upgraded. -/
theorem c10_witness :
    try_lock_shared true ⟨true, LockMode.EXCLUSIVE, 3⟩ =
      (false, ⟨true, LockMode.EXCLUSIVE, 3⟩) ∧
    try_upgrade true ⟨false, LockMode.SHARED, 3⟩ =
      (false, ⟨false, LockMode.SHARED, 3⟩) :=
  ⟨(c10_no_downgrade_while_held ⟨true, LockMode.EXCLUSIVE, 3⟩ true
      rfl).1,
   (c10_no_downgrade_while_held ⟨true, LockMode.EXCLUSIVE, 3⟩ true
      rfl).2 ⟨false, LockMode.SHARED, 3⟩ true rfl⟩

end Cmdgpt
